import Mathlib

/-!
Verification of `src/static/animated-borders.js` (StudyCloud repository).

The file holds two near-duplicate scripts ("variant 1" and "variant 2"),
each registering a DOMContentLoaded handler that performs two passes over
the document: wrap eligible input elements, then wrap eligible button
elements, inside freshly created wrapper `div`s.

Shallow embedding notes:
* The live DOM is a rose tree `Elem` of nodes carrying the data the script
  reads or writes: tag name, `type` attribute (`""` when absent), class
  list, inline `style.width` / `style.display` (`""` when unset), and a
  snapshot of `getComputedStyle(el).width` (an environment input, stored
  as a per-element field `computedWidth`).
* The root of the tree models the document container; the passes decorate
  descendants, never the root itself (in the DOM, matched elements always
  lie strictly inside the document).
* `querySelectorAll(...).forEach` iterates a static snapshot in document
  (preorder) order, and each wrap only inserts a wrapper between a matched
  element and its parent.  A matched element that descends from an element
  wrapped earlier in the same pass is skipped by the
  `closest('.<wrapper-class>')` guard.  That top-down behaviour is captured
  by the recursive `decorateGo` below, which threads the guard state `u`
  ("some ancestor, or the document on the way down, carries the wrapper
  class") and never descends into freshly wrapped subtrees — inside such a
  subtree every snapshot element is guard-skipped, so the subtree is kept
  verbatim.
* Created nodes (wrappers and layer `div`s) get node id `0`; ids matter
  only for stating identity claims about pre-existing nodes.
-/

namespace AnimatedBorders

/-- Per-node data the script reads or writes: tag, `type` attribute,
class list, inline width/display, and the computed-width snapshot. -/
structure NodeData where
  id : Nat
  tag : String
  typeAttr : String
  classes : List String
  styleWidth : String
  styleDisplay : String
  computedWidth : String
deriving DecidableEq

/-- A DOM element: node data plus the ordered list of child elements. -/
inductive Elem where
  | mk (data : NodeData) (children : List Elem)

/-- Node data of an element. -/
def Elem.data : Elem → NodeData
  | .mk d _ => d

/-- Children of an element. -/
def Elem.children : Elem → List Elem
  | .mk _ cs => cs

@[simp] theorem Elem.data_mk (d : NodeData) (cs : List Elem) :
    (Elem.mk d cs).data = d := rfl

@[simp] theorem Elem.children_mk (d : NodeData) (cs : List Elem) :
    (Elem.mk d cs).children = cs := rfl

/-- Configuration of one decoration pass, read off the script: the
eligible-selector predicate, the exclusion predicate, the wrapper class
name, the inner layer class names (in creation order), whether the pass
copies a width onto the wrapper (variant 1 input pass only), and the
inline display value assigned to the wrapper (`""` when none). -/
structure Config where
  matchesSel : NodeData → Bool
  excl : NodeData → Bool
  wCls : String
  layers : List String
  copyWidth : Bool
  display : String

/-- Whether a node's class list contains the pass's wrapper class
(`classList.contains` / the self part of `closest`). -/
def hasCls (cfg : Config) (d : NodeData) : Bool :=
  d.classes.contains cfg.wCls

/-- The script wraps an element iff `closest('.<wrapper-class>')` finds
nothing (neither the element itself nor an ancestor, the latter recorded
in the flag `u`), the element matches the eligible selector set, and no
exclusion applies. -/
def shouldWrap (cfg : Config) (u : Bool) (d : NodeData) : Bool :=
  !u && !(hasCls cfg d) && cfg.matchesSel d && !(cfg.excl d)

/-- One inner layer: `document.createElement('div')` with
`className = name` (lines 58-65 / 86-93 of the script). -/
def layerElem (name : String) : Elem :=
  .mk ⟨0, "div", "", [name], "", "", ""⟩ []

/-- Node data of a freshly created wrapper `div`: `className = wCls`;
variant 1's input pass copies `input.style.width || getComputedStyle(input).width`
onto `wrapper.style.width` when that value is nonempty (lines 17-21), and
variant 2's button pass sets `wrapper.style.display = 'inline-block'`
(line 83). -/
def wrapData (cfg : Config) (t : NodeData) : NodeData :=
  ⟨0, "div", "", [cfg.wCls],
    (if cfg.copyWidth then (if t.styleWidth = "" then t.computedWidth else t.styleWidth) else ""),
    cfg.display, ""⟩

/-- The wrapper produced for target `t`: the layer `div`s in creation
order followed by the target as last child (`appendChild` order,
lines 24-25 / 42-43 / 68-72 / 96-100). -/
def wrapElem (cfg : Config) (t : Elem) : Elem :=
  .mk (wrapData cfg t.data) (cfg.layers.map layerElem ++ [t])

mutual
/-- One decoration pass below a node, with `u` the `closest`-ancestor
guard state accumulated so far.  The node itself is left in place; each
child is either wrapped (guard clear, selector match, no exclusion) or
recursively processed. -/
def decorateGo (cfg : Config) (u : Bool) : Elem → Elem
  | .mk d cs => .mk d (decorateChildren cfg (u || hasCls cfg d) cs)

/-- Pointwise decoration of a sibling list (the snapshot `forEach`,
restricted to this subtree, in document order). -/
def decorateChildren (cfg : Config) (u : Bool) : List Elem → List Elem
  | [] => []
  | c :: cs =>
      (if shouldWrap cfg u c.data then wrapElem cfg c else decorateGo cfg u c)
        :: decorateChildren cfg u cs
end

/-- Variant 1 input pass (lines 5-26): selector
`input[type="text"], input[type="email"], input[type="password"], select, textarea`;
skip elements of class `search-input`; wrapper class
`input-animated-wrapper`; no layers; width copied onto the wrapper. -/
def cfgV1Input : Config where
  matchesSel d :=
    (d.tag == "input" &&
      (d.typeAttr == "text" || d.typeAttr == "email" || d.typeAttr == "password"))
      || d.tag == "select" || d.tag == "textarea"
  excl d := d.classes.contains "search-input"
  wCls := "input-animated-wrapper"
  layers := []
  copyWidth := true
  display := ""

/-- Variant 1 button pass (lines 29-44): selector
`.btn-primary, .submit-btn, button[type="submit"]`; skip `nav-btn`,
`tab-btn`, `card-btn`; wrapper class `btn-animated-wrapper`; no layers. -/
def cfgV1Button : Config where
  matchesSel d :=
    d.classes.contains "btn-primary" || d.classes.contains "submit-btn"
      || (d.tag == "button" && d.typeAttr == "submit")
  excl d :=
    d.classes.contains "nav-btn" || d.classes.contains "tab-btn"
      || d.classes.contains "card-btn"
  wCls := "btn-animated-wrapper"
  layers := []
  copyWidth := false
  display := ""

/-- Variant 2 input pass (lines 50-74): selector additionally includes
`.search-input`; no exclusions; layers
`glow-input`, `darkBorderBg-input`, `border-input`. -/
def cfgV2Input : Config where
  matchesSel d :=
    (d.tag == "input" &&
      (d.typeAttr == "text" || d.typeAttr == "email" || d.typeAttr == "password"))
      || d.classes.contains "search-input" || d.tag == "select" || d.tag == "textarea"
  excl _ := false
  wCls := "input-animated-wrapper"
  layers := ["glow-input", "darkBorderBg-input", "border-input"]
  copyWidth := false
  display := ""

/-- Variant 2 button pass (lines 77-102): selector
`.btn, .btn-primary, .btn-secondary, .btn-danger, .submit-btn, button[type="submit"]`;
skip `nav-btn` and `tab-btn` (line 80 — note: no `card-btn` check in this
variant); wrapper class `btn-animated-wrapper`; layers
`glow-btn`, `darkBorderBg-btn`, `border-btn`; wrapper display
`inline-block`. -/
def cfgV2Button : Config where
  matchesSel d :=
    d.classes.contains "btn" || d.classes.contains "btn-primary"
      || d.classes.contains "btn-secondary" || d.classes.contains "btn-danger"
      || d.classes.contains "submit-btn" || (d.tag == "button" && d.typeAttr == "submit")
  excl d := d.classes.contains "nav-btn" || d.classes.contains "tab-btn"
  wCls := "btn-animated-wrapper"
  layers := ["glow-btn", "darkBorderBg-btn", "border-btn"]
  copyWidth := false
  display := "inline-block"

/-- Variant 1 handler: input pass then button pass over the document. -/
def v1Decorate (d : Elem) : Elem :=
  decorateGo cfgV1Button false (decorateGo cfgV1Input false d)

/-- Variant 2 handler: input pass then button pass over the document. -/
def v2Decorate (d : Elem) : Elem :=
  decorateGo cfgV2Button false (decorateGo cfgV2Input false d)

/-- Node addressed by a path of child indices from the given root. -/
def getAt : Elem → List Nat → Option Elem
  | e, [] => some e
  | e, i :: π => match e.children[i]? with
      | some c => getAt c π
      | none => none

/-- Guard flag handed to the children of the node addressed by `π`
(starting from flag `u` at the root): true iff the root flag is set or
some node on the path, the addressed node included, carries the pass's
wrapper class. -/
def pathFlag (cfg : Config) : Bool → Elem → List Nat → Bool
  | u, e, [] => u || hasCls cfg e.data
  | u, e, i :: π => match e.children[i]? with
      | some c => pathFlag cfg (u || hasCls cfg e.data) c π
      | none => true

/-- All nodes entered along the path exist and none of them gets wrapped
by the pass (so positions along the path are stable). -/
def parentPathSafe (cfg : Config) : Bool → Elem → List Nat → Bool
  | _, _, [] => true
  | u, e, i :: π => match e.children[i]? with
      | some c =>
          !(shouldWrap cfg (u || hasCls cfg e.data) c.data)
            && parentPathSafe cfg (u || hasCls cfg e.data) c π
      | none => false

/-- Number of strict ancestors, along path `π`, carrying class `cls`. -/
def ancCount (cls : String) : Elem → List Nat → Nat
  | _, [] => 0
  | e, i :: π =>
      (if e.data.classes.contains cls then 1 else 0) +
        (match e.children[i]? with
         | some c => ancCount cls c π
         | none => 0)

mutual
/-- The subtree is a fixpoint of the pass: no descendant would be
wrapped when reached with root flag `u`. -/
def decorated (cfg : Config) : Bool → Elem → Bool
  | u, .mk d cs => decoratedList cfg (u || hasCls cfg d) cs

/-- List form of `decorated`. -/
def decoratedList (cfg : Config) : Bool → List Elem → Bool
  | _, [] => true
  | u, c :: cs =>
      !(shouldWrap cfg u c.data) && decorated cfg u c && decoratedList cfg u cs
end

mutual
/-- Predicate `p` holds of the data of every node of the subtree. -/
def allDataP (p : NodeData → Bool) : Elem → Bool
  | .mk d cs => p d && allDataListP p cs

/-- List form of `allDataP`. -/
def allDataListP (p : NodeData → Bool) : List Elem → Bool
  | [] => true
  | c :: cs => allDataP p c && allDataListP p cs
end

/-- Per-element decoration step of the script body (lines 7-26 / 31-44),
for one matched element: `ancFound` is the ancestor part of the
`closest('.<wrapper-class>')` call, `parent` is `el.parentNode` (`none`
models a null parent).  Returns `ok true` when the element was wrapped,
`ok false` when the step skipped it (no mutation), and `error` when the
script would throw — line 24/42/68/96 dereferences `parentNode` without
a null check. -/
def decorateStep (cfg : Config) (ancFound : Bool) (parent : Option Elem)
    (el : Elem) : Except String Bool :=
  if ancFound || hasCls cfg el.data then .ok false
  else if cfg.excl el.data then .ok false
  else match parent with
    | some _ => .ok true
    | none => .error "TypeError: null parentNode"

/-- List insertion at an index: `parent.insertBefore(w, target)` with the
target at index `i` puts `w` at index `i`. -/
def insAt : Nat → Elem → List Elem → List Elem
  | 0, w, cs => w :: cs
  | _ + 1, w, [] => [w]
  | n + 1, w, c :: cs => c :: insAt n w cs

/-- List removal at an index: the removal half of `appendChild` when the
appended node currently sits at index `i` of this sibling list. -/
def delAt : Nat → List Elem → List Elem
  | _, [] => []
  | 0, _ :: cs => cs
  | n + 1, c :: cs => c :: delAt n cs

/-- Apply `f` to the element at index `i`, if any. -/
def modifyAt (i : Nat) (f : Elem → Elem) (cs : List Elem) : List Elem :=
  match cs[i]? with
  | some c => cs.set i (f c)
  | none => cs

/-- Append a last child to an element (`appendChild`, insertion half). -/
def addChild (t : Elem) (e : Elem) : Elem :=
  .mk e.data (e.children ++ [t])

/-- The wrapper as it stands right before the target is moved in: layer
`div`s already appended, target still outside. -/
def bareWrapper (cfg : Config) (t : Elem) : Elem :=
  .mk (wrapData cfg t.data) (cfg.layers.map layerElem)

/-- The wrap of the target at index `i` of a sibling list, played as the
script's DOM call sequence: `insertBefore(wrapper, target)` (wrapper at
index `i`, target now at `i + 1`), then `appendChild(target)` (target
removed from the list and appended as the wrapper's last child). -/
def domWrapSeq (cfg : Config) (i : Nat) (cs : List Elem) : List Elem :=
  match cs[i]? with
  | some t => modifyAt i (addChild t) (delAt (i + 1) (insAt i (bareWrapper cfg t) cs))
  | none => cs

/-! Concrete example documents and elements, used to instantiate the
universally quantified statements and to exhibit counterexamples. -/

/-- A document body holding the given children. -/
def docBody (cs : List Elem) : Elem :=
  .mk ⟨1, "body", "", [], "", "", ""⟩ cs

/-- A plain text input. -/
def elInputText : Elem :=
  .mk ⟨2, "input", "text", [], "", "", ""⟩ []

/-- A text input with an explicit inline width. -/
def elInputWide : Elem :=
  .mk ⟨3, "input", "text", [], "100px", "", "240px"⟩ []

/-- The navbar search input (class `search-input`). -/
def elSearchInput : Elem :=
  .mk ⟨4, "input", "text", ["search-input"], "", "", ""⟩ []

/-- A navigation button (class `nav-btn`). -/
def elNavBtn : Elem :=
  .mk ⟨5, "button", "submit", ["nav-btn"], "", "", ""⟩ []

/-- A card button of class `btn` and `card-btn`. -/
def elCardBtn : Elem :=
  .mk ⟨6, "button", "", ["btn", "card-btn"], "", "", ""⟩ []

/-- A primary button. -/
def elBtnPrimary : Elem :=
  .mk ⟨7, "button", "", ["btn-primary"], "", "", ""⟩ []

/-- A second primary button (a later sibling). -/
def elBtnPrimaryB : Elem :=
  .mk ⟨8, "button", "", ["btn-primary"], "", "", ""⟩ []

/-- A text input that also carries the class `btn-primary`, so it matches
both the input-pass and the button-pass selector sets of variant 1. -/
def elInputBtn : Elem :=
  .mk ⟨9, "input", "text", ["btn-primary"], "", "", ""⟩ []

/-- A plain `div`, matched by no selector of either pass. -/
def elDiv : Elem :=
  .mk ⟨10, "div", "", [], "", "", ""⟩ []

/-! Equation lemmas for the recursive definitions. -/

@[simp] theorem decorateGo_mk (cfg : Config) (u : Bool) (d : NodeData) (cs : List Elem) :
    decorateGo cfg u (.mk d cs) = .mk d (decorateChildren cfg (u || hasCls cfg d) cs) := by
  rw [decorateGo]

@[simp] theorem decorateChildren_nil (cfg : Config) (u : Bool) :
    decorateChildren cfg u [] = [] := by
  rw [decorateChildren]

@[simp] theorem decorateChildren_cons (cfg : Config) (u : Bool) (c : Elem) (cs : List Elem) :
    decorateChildren cfg u (c :: cs) =
      (if shouldWrap cfg u c.data then wrapElem cfg c else decorateGo cfg u c)
        :: decorateChildren cfg u cs := by
  rw [decorateChildren]

@[simp] theorem decorated_mk (cfg : Config) (u : Bool) (d : NodeData) (cs : List Elem) :
    decorated cfg u (.mk d cs) = decoratedList cfg (u || hasCls cfg d) cs := by
  rw [decorated]

@[simp] theorem decoratedList_nil (cfg : Config) (u : Bool) :
    decoratedList cfg u [] = true := by
  rw [decoratedList]

@[simp] theorem decoratedList_cons (cfg : Config) (u : Bool) (c : Elem) (cs : List Elem) :
    decoratedList cfg u (c :: cs) =
      (!(shouldWrap cfg u c.data) && decorated cfg u c && decoratedList cfg u cs) := by
  rw [decoratedList]

@[simp] theorem allDataP_mk (p : NodeData → Bool) (d : NodeData) (cs : List Elem) :
    allDataP p (.mk d cs) = (p d && allDataListP p cs) := by
  rw [allDataP]

@[simp] theorem allDataListP_nil (p : NodeData → Bool) :
    allDataListP p [] = true := by
  rw [allDataListP]

@[simp] theorem allDataListP_cons (p : NodeData → Bool) (c : Elem) (cs : List Elem) :
    allDataListP p (c :: cs) = (allDataP p c && allDataListP p cs) := by
  rw [allDataListP]

@[simp] theorem getAt_nil (e : Elem) : getAt e [] = some e := by
  rw [getAt]

theorem getAt_cons (e : Elem) (i : Nat) (π : List Nat) :
    getAt e (i :: π) = match e.children[i]? with
      | some c => getAt c π
      | none => none := by
  rw [getAt]

theorem getAt_cons_some {e c : Elem} {i : Nat} (h : e.children[i]? = some c) (π : List Nat) :
    getAt e (i :: π) = getAt c π := by
  rw [getAt_cons, h]

theorem pathFlag_nil (cfg : Config) (u : Bool) (e : Elem) :
    pathFlag cfg u e [] = (u || hasCls cfg e.data) := by
  rw [pathFlag]

theorem pathFlag_cons_some (cfg : Config) {e c : Elem} {i : Nat} (u : Bool)
    (h : e.children[i]? = some c) (π : List Nat) :
    pathFlag cfg u e (i :: π) = pathFlag cfg (u || hasCls cfg e.data) c π := by
  rw [pathFlag, h]

@[simp] theorem parentPathSafe_nil (cfg : Config) (u : Bool) (e : Elem) :
    parentPathSafe cfg u e [] = true := by
  rw [parentPathSafe]

theorem parentPathSafe_cons_some (cfg : Config) {e c : Elem} {i : Nat} (u : Bool)
    (h : e.children[i]? = some c) (π : List Nat) :
    parentPathSafe cfg u e (i :: π) =
      (!(shouldWrap cfg (u || hasCls cfg e.data) c.data)
        && parentPathSafe cfg (u || hasCls cfg e.data) c π) := by
  rw [parentPathSafe, h]

theorem parentPathSafe_cons_none (cfg : Config) {e : Elem} {i : Nat} (u : Bool)
    (h : e.children[i]? = none) (π : List Nat) :
    parentPathSafe cfg u e (i :: π) = false := by
  rw [parentPathSafe, h]

/-! Basic structural facts. -/

theorem data_decorateGo (cfg : Config) (u : Bool) (e : Elem) :
    (decorateGo cfg u e).data = e.data := by
  cases e with
  | mk d cs => simp

theorem children_decorateGo (cfg : Config) (u : Bool) (e : Elem) :
    (decorateGo cfg u e).children =
      decorateChildren cfg (u || hasCls cfg e.data) e.children := by
  cases e with
  | mk d cs => simp

theorem decorateChildren_eq_map (cfg : Config) (u : Bool) :
    ∀ cs : List Elem, decorateChildren cfg u cs =
      cs.map (fun c => if shouldWrap cfg u c.data then wrapElem cfg c else decorateGo cfg u c)
  | [] => by simp
  | c :: cs => by
      simp [decorateChildren_eq_map cfg u cs]

theorem decorateChildren_getElem? (cfg : Config) (u : Bool) (cs : List Elem) (i : Nat) :
    (decorateChildren cfg u cs)[i]? =
      cs[i]?.map
        (fun c => if shouldWrap cfg u c.data then wrapElem cfg c else decorateGo cfg u c) := by
  rw [decorateChildren_eq_map, List.getElem?_map]

theorem hasCls_wrapData (cfg : Config) (t : NodeData) :
    hasCls cfg (wrapData cfg t) = true := by
  simp [hasCls, wrapData]

theorem shouldWrap_false_or (cfg : Config) {u : Bool} (x : Bool) {d : NodeData}
    (h : shouldWrap cfg u d = false) : shouldWrap cfg (u || x) d = false := by
  cases x
  · simpa using h
  · simp [shouldWrap]

theorem shouldWrap_false_of_not_matches (cfg : Config) (u : Bool) {d : NodeData}
    (h : cfg.matchesSel d = false) : shouldWrap cfg u d = false := by
  simp [shouldWrap, h]

theorem shouldWrap_false_of_excl (cfg : Config) (u : Bool) {d : NodeData}
    (h : cfg.excl d = true) : shouldWrap cfg u d = false := by
  simp [shouldWrap, h]

/-! A second run of a pass changes nothing: the `closest` guard skips
every element the first run wrapped or left alone. -/

mutual
theorem decorateGo_true (cfg : Config) : ∀ e, decorateGo cfg true e = e
  | .mk d cs => by
      rw [decorateGo_mk, Bool.true_or, decorateChildren_true cfg cs]

theorem decorateChildren_true (cfg : Config) : ∀ cs, decorateChildren cfg true cs = cs
  | [] => by simp
  | c :: cs => by
      rw [decorateChildren_cons, decorateChildren_true cfg cs]
      simp [shouldWrap, decorateGo_true cfg c]
end

mutual
theorem decorated_true (cfg : Config) : ∀ e, decorated cfg true e = true
  | .mk d cs => by
      rw [decorated_mk, Bool.true_or]
      exact decoratedList_true cfg cs

theorem decoratedList_true (cfg : Config) : ∀ cs, decoratedList cfg true cs = true
  | [] => by simp
  | c :: cs => by
      rw [decoratedList_cons]
      simp [shouldWrap, decorated_true cfg c, decoratedList_true cfg cs]
end

theorem decorated_or (cfg : Config) {u : Bool} (x : Bool) {e : Elem}
    (h : decorated cfg u e = true) : decorated cfg (u || x) e = true := by
  cases x
  · simpa using h
  · simp [decorated_true]

mutual
theorem decorated_decorateGo (cfg : Config) :
    ∀ (e : Elem) (u : Bool), decorated cfg u (decorateGo cfg u e) = true
  | .mk d cs, u => by
      rw [decorateGo_mk, decorated_mk]
      exact decoratedList_decorateChildren cfg cs (u || hasCls cfg d)

theorem decoratedList_decorateChildren (cfg : Config) :
    ∀ (cs : List Elem) (u : Bool), decoratedList cfg u (decorateChildren cfg u cs) = true
  | [], u => by simp
  | c :: cs, u => by
      rw [decorateChildren_cons, decoratedList_cons]
      by_cases h : shouldWrap cfg u c.data = true
      · rw [if_pos h]
        have h1 : shouldWrap cfg u (wrapElem cfg c).data = false := by
          simp [shouldWrap, wrapElem, hasCls_wrapData]
        have h2 : decorated cfg u (wrapElem cfg c) = true := by
          rw [wrapElem, decorated_mk, hasCls_wrapData, Bool.or_true]
          exact decoratedList_true cfg _
        simp [h1, h2, decoratedList_decorateChildren cfg cs u]
      · rw [if_neg h]
        have h0 : shouldWrap cfg u c.data = false := by
          simpa using h
        have h1 : shouldWrap cfg u (decorateGo cfg u c).data = false := by
          rw [data_decorateGo]; exact h0
        simp [h1, decorated_decorateGo cfg c u, decoratedList_decorateChildren cfg cs u]
end

mutual
theorem decorateGo_of_decorated (cfg : Config) :
    ∀ (e : Elem) (u : Bool), decorated cfg u e = true → decorateGo cfg u e = e
  | .mk d cs, u, h => by
      rw [decorated_mk] at h
      rw [decorateGo_mk, decorateChildren_of_decoratedList cfg cs _ h]

theorem decorateChildren_of_decoratedList (cfg : Config) :
    ∀ (cs : List Elem) (u : Bool), decoratedList cfg u cs = true → decorateChildren cfg u cs = cs
  | [], u, _ => by simp
  | c :: cs, u, h => by
      rw [decoratedList_cons] at h
      simp only [Bool.and_eq_true, Bool.not_eq_true'] at h
      rw [decorateChildren_cons, if_neg (by simp [h.1.1]),
        decorateGo_of_decorated cfg c u h.1.2, decorateChildren_of_decoratedList cfg cs u h.2]
end

theorem decorateGo_idem (cfg : Config) (u : Bool) (e : Elem) :
    decorateGo cfg u (decorateGo cfg u e) = decorateGo cfg u e :=
  decorateGo_of_decorated cfg _ u (decorated_decorateGo cfg e u)

/-! One pass also leaves the other pass's fixpoints fixed, as long as the
other pass's wrappers and layers match none of its selectors. -/

theorem decoratedList_append (cfg : Config) (u : Bool) :
    ∀ as bs : List Elem,
      decoratedList cfg u (as ++ bs) = (decoratedList cfg u as && decoratedList cfg u bs)
  | [], bs => by simp
  | a :: as, bs => by
      rw [List.cons_append, decoratedList_cons, decoratedList_cons,
        decoratedList_append cfg u as bs]
      simp [Bool.and_assoc]

theorem decoratedList_layers (cfg₁ : Config) (v : Bool) :
    ∀ names : List String,
      (∀ name ∈ names, cfg₁.matchesSel (layerElem name).data = false) →
      decoratedList cfg₁ v (names.map layerElem) = true
  | [], _ => by simp
  | n :: names, h => by
      have h1 : shouldWrap cfg₁ v (layerElem n).data = false :=
        shouldWrap_false_of_not_matches cfg₁ v (h n (by simp))
      have h2 : decorated cfg₁ v (layerElem n) = true := by
        rw [layerElem, decorated_mk]; simp
      simp [h1, h2,
        decoratedList_layers cfg₁ v names (fun name hm => h name (by simp [hm]))]

mutual
theorem decorated_decorateGo_other (cfg₁ cfg₂ : Config)
    (H : ∀ t, cfg₁.matchesSel (wrapData cfg₂ t) = false)
    (Hl : ∀ name ∈ cfg₂.layers, cfg₁.matchesSel (layerElem name).data = false) :
    ∀ (e : Elem) (u₁ u₂ : Bool), decorated cfg₁ u₁ e = true →
      decorated cfg₁ u₁ (decorateGo cfg₂ u₂ e) = true
  | .mk d cs, u₁, u₂, h => by
      rw [decorated_mk] at h
      rw [decorateGo_mk, decorated_mk]
      exact decoratedList_decorateChildren_other cfg₁ cfg₂ H Hl cs _ _ h

theorem decoratedList_decorateChildren_other (cfg₁ cfg₂ : Config)
    (H : ∀ t, cfg₁.matchesSel (wrapData cfg₂ t) = false)
    (Hl : ∀ name ∈ cfg₂.layers, cfg₁.matchesSel (layerElem name).data = false) :
    ∀ (cs : List Elem) (u₁ u₂ : Bool), decoratedList cfg₁ u₁ cs = true →
      decoratedList cfg₁ u₁ (decorateChildren cfg₂ u₂ cs) = true
  | [], _, _, _ => by simp
  | c :: cs, u₁, u₂, h => by
      rw [decoratedList_cons] at h
      simp only [Bool.and_eq_true, Bool.not_eq_true'] at h
      rw [decorateChildren_cons, decoratedList_cons]
      have htail : decoratedList cfg₁ u₁ (decorateChildren cfg₂ u₂ cs) = true :=
        decoratedList_decorateChildren_other cfg₁ cfg₂ H Hl cs u₁ u₂ h.2
      by_cases hw : shouldWrap cfg₂ u₂ c.data = true
      · rw [if_pos hw]
        have h1 : shouldWrap cfg₁ u₁ (wrapElem cfg₂ c).data = false := by
          rw [wrapElem, Elem.data_mk]
          exact shouldWrap_false_of_not_matches cfg₁ u₁ (H c.data)
        have h2 : decorated cfg₁ u₁ (wrapElem cfg₂ c) = true := by
          rw [wrapElem, decorated_mk, decoratedList_append]
          have hlay := decoratedList_layers cfg₁ (u₁ || hasCls cfg₁ (wrapData cfg₂ c.data))
            cfg₂.layers Hl
          have hc1 : shouldWrap cfg₁ (u₁ || hasCls cfg₁ (wrapData cfg₂ c.data)) c.data = false :=
            shouldWrap_false_or cfg₁ _ h.1.1
          have hc2 : decorated cfg₁ (u₁ || hasCls cfg₁ (wrapData cfg₂ c.data)) c = true :=
            decorated_or cfg₁ _ h.1.2
          simp [hlay, hc1, hc2]
        simp [h1, h2, htail]
      · rw [if_neg hw]
        have h1 : shouldWrap cfg₁ u₁ (decorateGo cfg₂ u₂ c).data = false := by
          rw [data_decorateGo]; simp [h.1.1]
        have h2 : decorated cfg₁ u₁ (decorateGo cfg₂ u₂ c) = true :=
          decorated_decorateGo_other cfg₁ cfg₂ H Hl c u₁ u₂ h.1.2
        simp [h1, h2, htail]
end

theorem cross_stable (cfg₁ cfg₂ : Config)
    (H : ∀ t, cfg₁.matchesSel (wrapData cfg₂ t) = false)
    (Hl : ∀ name ∈ cfg₂.layers, cfg₁.matchesSel (layerElem name).data = false)
    (u₁ u₂ : Bool) (e : Elem) :
    decorateGo cfg₁ u₁ (decorateGo cfg₂ u₂ (decorateGo cfg₁ u₁ e)) =
      decorateGo cfg₂ u₂ (decorateGo cfg₁ u₁ e) :=
  decorateGo_of_decorated cfg₁ _ u₁
    (decorated_decorateGo_other cfg₁ cfg₂ H Hl _ u₁ u₂ (decorated_decorateGo cfg₁ e u₁))

theorem v1_cross_matches :
    ∀ t, cfgV1Input.matchesSel (wrapData cfgV1Button t) = false := by
  intro t
  rfl

theorem v1_cross_layers :
    ∀ name ∈ cfgV1Button.layers, cfgV1Input.matchesSel (layerElem name).data = false := by
  intro name h
  simp [cfgV1Button] at h

theorem v2_cross_matches :
    ∀ t, cfgV2Input.matchesSel (wrapData cfgV2Button t) = false := by
  intro t
  rfl

theorem v2_cross_layers :
    ∀ name ∈ cfgV2Button.layers, cfgV2Input.matchesSel (layerElem name).data = false := by
  intro name h
  simp [cfgV2Button] at h
  rcases h with rfl | rfl | rfl <;> decide

theorem v1Decorate_idem (d : Elem) : v1Decorate (v1Decorate d) = v1Decorate d := by
  unfold v1Decorate
  rw [cross_stable cfgV1Input cfgV1Button v1_cross_matches v1_cross_layers false false d,
    decorateGo_idem]

theorem v2Decorate_idem (d : Elem) : v2Decorate (v2Decorate d) = v2Decorate d := by
  unfold v2Decorate
  rw [cross_stable cfgV2Input cfgV2Button v2_cross_matches v2_cross_layers false false d,
    decorateGo_idem]

/-! Path lemmas: the pass maps each sibling list pointwise, so the node
addressed by a path of indices survives at the same path as long as no
strict ancestor on the path gets wrapped. -/

theorem getAt_append : ∀ (π π' : List Nat) (e : Elem),
    getAt e (π ++ π') = (getAt e π).bind (fun x => getAt x π')
  | [], π', e => by simp
  | i :: π, π', e => by
      cases h : e.children[i]? with
      | none => simp [getAt_cons, h]
      | some c => simp [getAt_cons, h, getAt_append π π' c]

theorem pathQ (cfg : Config) : ∀ (π : List Nat) (e : Elem) (u : Bool) (q : Elem),
    parentPathSafe cfg u e π = true → getAt e π = some q →
    ∃ q', getAt (decorateGo cfg u e) π = some q' ∧ q'.data = q.data ∧
      q'.children = decorateChildren cfg (pathFlag cfg u e π) q.children
  | [], e, u, q, _, hq => by
      rw [getAt_nil, Option.some_inj] at hq
      subst hq
      refine ⟨decorateGo cfg u e, by simp, data_decorateGo cfg u e, ?_⟩
      rw [children_decorateGo, pathFlag_nil]
  | i :: π, e, u, q, hs, hq => by
      cases h : e.children[i]? with
      | none =>
          rw [getAt_cons, h] at hq
          simp at hq
      | some c =>
          rw [parentPathSafe_cons_some cfg u h] at hs
          simp only [Bool.and_eq_true, Bool.not_eq_true'] at hs
          rw [getAt_cons_some h] at hq
          obtain ⟨q', h1, h2, h3⟩ := pathQ cfg π c (u || hasCls cfg e.data) q hs.2 hq
          refine ⟨q', ?_, h2, ?_⟩
          · have hch : (decorateGo cfg u e).children[i]? =
                some (decorateGo cfg (u || hasCls cfg e.data) c) := by
              rw [children_decorateGo, decorateChildren_getElem?, h, Option.map_some',
                if_neg (by simp [hs.1])]
            rw [getAt_cons_some hch, h1]
          · rw [h3, pathFlag_cons_some cfg u h]

theorem pathW (cfg : Config) {π : List Nat} {e q c : Elem} {u : Bool} {i : Nat}
    (hs : parentPathSafe cfg u e π = true) (hq : getAt e π = some q)
    (hc : q.children[i]? = some c)
    (hw : shouldWrap cfg (pathFlag cfg u e π) c.data = true) :
    getAt (decorateGo cfg u e) (π ++ [i]) = some (wrapElem cfg c) := by
  obtain ⟨q', h1, _, h3⟩ := pathQ cfg π e u q hs hq
  have hch : q'.children[i]? = some (wrapElem cfg c) := by
    rw [h3, decorateChildren_getElem?, hc, Option.map_some', if_pos hw]
  rw [getAt_append, h1]
  simp [getAt_cons, hch]

theorem pathN (cfg : Config) {π : List Nat} {e q c : Elem} {u : Bool} {i : Nat}
    (hs : parentPathSafe cfg u e π = true) (hq : getAt e π = some q)
    (hc : q.children[i]? = some c)
    (hw : shouldWrap cfg (pathFlag cfg u e π) c.data = false) :
    getAt (decorateGo cfg u e) (π ++ [i]) =
      some (decorateGo cfg (pathFlag cfg u e π) c) := by
  obtain ⟨q', h1, _, h3⟩ := pathQ cfg π e u q hs hq
  have hch : q'.children[i]? = some (decorateGo cfg (pathFlag cfg u e π) c) := by
    rw [h3, decorateChildren_getElem?, hc, Option.map_some', if_neg (by simp [hw])]
  rw [getAt_append, h1]
  simp [getAt_cons, hch]

theorem parentPathSafe_of_append (cfg : Config) :
    ∀ (σ τ : List Nat) (e : Elem) (u : Bool),
      parentPathSafe cfg u e (σ ++ τ) = true → parentPathSafe cfg u e σ = true
  | [], _, _, _, _ => by simp
  | i :: σ, τ, e, u, h => by
      cases hc : e.children[i]? with
      | none =>
          rw [List.cons_append, parentPathSafe_cons_none cfg u hc] at h
          simp at h
      | some c =>
          rw [List.cons_append, parentPathSafe_cons_some cfg u hc] at h
          simp only [Bool.and_eq_true] at h
          rw [parentPathSafe_cons_some cfg u hc]
          simp only [Bool.and_eq_true]
          exact ⟨h.1, parentPathSafe_of_append cfg σ τ c _ h.2⟩

theorem parentPathSafe_snoc (cfg : Config) :
    ∀ (ρ : List Nat) (e : Elem) (u : Bool) (q c : Elem) (i : Nat),
      parentPathSafe cfg u e ρ = true → getAt e ρ = some q → q.children[i]? = some c →
      shouldWrap cfg (pathFlag cfg u e ρ) c.data = false →
      parentPathSafe cfg u e (ρ ++ [i]) = true
  | [], e, u, q, c, i, _, hq, hc, hw => by
      rw [getAt_nil, Option.some_inj] at hq
      subst hq
      rw [pathFlag_nil] at hw
      rw [List.nil_append, parentPathSafe_cons_some cfg u hc]
      simp [hw]
  | j :: ρ, e, u, q, c, i, hs, hq, hc, hw => by
      cases hc0 : e.children[j]? with
      | none =>
          rw [parentPathSafe_cons_none cfg u hc0] at hs
          simp at hs
      | some c₀ =>
          rw [parentPathSafe_cons_some cfg u hc0] at hs
          simp only [Bool.and_eq_true] at hs
          rw [getAt_cons_some hc0] at hq
          rw [pathFlag_cons_some cfg u hc0] at hw
          rw [List.cons_append, parentPathSafe_cons_some cfg u hc0]
          simp only [Bool.and_eq_true]
          exact ⟨hs.1, parentPathSafe_snoc cfg ρ c₀ _ q c i hs.2 hq hc hw⟩

theorem pathFlag_snoc (cfg : Config) :
    ∀ (ρ : List Nat) (e : Elem) (u : Bool) (q c : Elem) (i : Nat),
      getAt e ρ = some q → q.children[i]? = some c →
      pathFlag cfg u e (ρ ++ [i]) = (pathFlag cfg u e ρ || hasCls cfg c.data)
  | [], e, u, q, c, i, hq, hc => by
      rw [getAt_nil, Option.some_inj] at hq
      subst hq
      rw [List.nil_append, pathFlag_cons_some cfg u hc, pathFlag_nil, pathFlag_nil]
  | j :: ρ, e, u, q, c, i, hq, hc => by
      cases hc0 : e.children[j]? with
      | none =>
          rw [getAt_cons, hc0] at hq
          simp at hq
      | some c₀ =>
          rw [getAt_cons_some hc0] at hq
          rw [List.cons_append, pathFlag_cons_some cfg u hc0, pathFlag_cons_some cfg u hc0,
            pathFlag_snoc cfg ρ c₀ _ q c i hq hc]

theorem path_transport (cfg₁ cfg₂ : Config) :
    ∀ (ρ : List Nat) (e : Elem) (u₁ u₂ : Bool),
      parentPathSafe cfg₁ u₁ e ρ = true →
      parentPathSafe cfg₂ u₂ (decorateGo cfg₁ u₁ e) ρ = parentPathSafe cfg₂ u₂ e ρ ∧
        pathFlag cfg₂ u₂ (decorateGo cfg₁ u₁ e) ρ = pathFlag cfg₂ u₂ e ρ
  | [], e, u₁, u₂, _ => by
      constructor
      · simp
      · rw [pathFlag_nil, pathFlag_nil, data_decorateGo]
  | i :: ρ, e, u₁, u₂, hs => by
      cases hc : e.children[i]? with
      | none =>
          rw [parentPathSafe_cons_none cfg₁ u₁ hc] at hs
          simp at hs
      | some c =>
          rw [parentPathSafe_cons_some cfg₁ u₁ hc] at hs
          simp only [Bool.and_eq_true, Bool.not_eq_true'] at hs
          have hch : (decorateGo cfg₁ u₁ e).children[i]? =
              some (decorateGo cfg₁ (u₁ || hasCls cfg₁ e.data) c) := by
            rw [children_decorateGo, decorateChildren_getElem?, hc, Option.map_some',
              if_neg (by simp [hs.1])]
          obtain ⟨ih1, ih2⟩ := path_transport cfg₁ cfg₂ ρ c
            (u₁ || hasCls cfg₁ e.data) (u₂ || hasCls cfg₂ e.data) hs.2
          constructor
          · rw [parentPathSafe_cons_some cfg₂ u₂ hch, parentPathSafe_cons_some cfg₂ u₂ hc,
              data_decorateGo, data_decorateGo, ih1]
          · rw [pathFlag_cons_some cfg₂ u₂ hch, pathFlag_cons_some cfg₂ u₂ hc,
              data_decorateGo, ih2]

/-! A document where nothing matches is left untouched. -/

theorem allDataP_data {p : NodeData → Bool} {c : Elem} (h : allDataP p c = true) :
    p c.data = true := by
  cases c with
  | mk d cs =>
      simp only [allDataP_mk, Bool.and_eq_true] at h
      simpa using h.1

mutual
theorem decorateGo_of_allNot (cfg : Config) :
    ∀ (e : Elem) (u : Bool), allDataP (fun x => !cfg.matchesSel x) e = true →
      decorateGo cfg u e = e
  | .mk d cs, u, h => by
      simp only [allDataP_mk, Bool.and_eq_true] at h
      rw [decorateGo_mk, decorateChildren_of_allNot cfg cs _ h.2]

theorem decorateChildren_of_allNot (cfg : Config) :
    ∀ (cs : List Elem) (u : Bool), allDataListP (fun x => !cfg.matchesSel x) cs = true →
      decorateChildren cfg u cs = cs
  | [], _, _ => by simp
  | c :: cs, u, h => by
      simp only [allDataListP_cons, Bool.and_eq_true] at h
      have hm : cfg.matchesSel c.data = false := by
        have hp := allDataP_data h.1
        simpa using hp
      rw [decorateChildren_cons,
        if_neg (by simp [shouldWrap_false_of_not_matches cfg u hm]),
        decorateGo_of_allNot cfg c u h.1, decorateChildren_of_allNot cfg cs u h.2]
end

/-! List surgery facts for the in-place substitution claim. -/

theorem getElem?_some_lt : ∀ (cs : List Elem) (i : Nat) (t : Elem),
    cs[i]? = some t → i < cs.length
  | [], i, t, h => by simp at h
  | _ :: _, 0, _, _ => Nat.succ_pos _
  | c :: cs, i + 1, t, h => by
      rw [List.getElem?_cons_succ] at h
      exact Nat.succ_lt_succ (getElem?_some_lt cs i t h)

theorem insAt_delAt : ∀ (cs : List Elem) (i : Nat) (w : Elem), i < cs.length →
    delAt (i + 1) (insAt i w cs) = cs.set i w
  | [], i, w, h => by simp at h
  | c :: cs, 0, w, _ => by
      rw [insAt, delAt, delAt, List.set_cons_zero]
  | c :: cs, i + 1, w, h => by
      rw [insAt, delAt, insAt_delAt cs i w (Nat.lt_of_succ_lt_succ h), List.set_cons_succ]

theorem getElem?_set_self : ∀ (cs : List Elem) (i : Nat) (w : Elem), i < cs.length →
    (cs.set i w)[i]? = some w
  | [], i, w, h => by simp at h
  | _ :: _, 0, _, _ => by simp
  | c :: cs, i + 1, w, h => by
      rw [List.set_cons_succ, List.getElem?_cons_succ]
      exact getElem?_set_self cs i w (Nat.lt_of_succ_lt_succ h)

theorem getElem?_set_ne : ∀ (cs : List Elem) (i j : Nat) (w : Elem), j ≠ i →
    (cs.set i w)[j]? = cs[j]?
  | [], _, _, _, _ => by simp
  | c :: cs, 0, 0, w, h => absurd rfl h
  | c :: cs, 0, j + 1, w, _ => by
      rw [List.set_cons_zero, List.getElem?_cons_succ, List.getElem?_cons_succ]
  | c :: cs, i + 1, 0, w, _ => by
      rw [List.set_cons_succ, List.getElem?_cons_zero, List.getElem?_cons_zero]
  | c :: cs, i + 1, j + 1, w, h => by
      rw [List.set_cons_succ, List.getElem?_cons_succ, List.getElem?_cons_succ]
      exact getElem?_set_ne cs i j w (fun hh => h (by rw [hh]))

theorem domWrapSeq_eq_set (cfg : Config) (cs : List Elem) (i : Nat) (t : Elem)
    (h : cs[i]? = some t) :
    domWrapSeq cfg i cs = cs.set i (wrapElem cfg t) := by
  have hlt : i < cs.length := getElem?_some_lt cs i t h
  have hlt2 : i < (cs.set i (bareWrapper cfg t)).length := by
    rwa [List.length_set]
  rw [domWrapSeq, h]
  show modifyAt i (addChild t) (delAt (i + 1) (insAt i (bareWrapper cfg t) cs)) =
    cs.set i (wrapElem cfg t)
  rw [insAt_delAt cs i _ hlt, modifyAt, getElem?_set_self cs i _ hlt]
  show (cs.set i (bareWrapper cfg t)).set i (addChild t (bareWrapper cfg t)) =
    cs.set i (wrapElem cfg t)
  rw [List.set_set]
  simp [addChild, bareWrapper, wrapElem]

theorem getLast?_wrapElem (cfg : Config) (t : Elem) :
    (wrapElem cfg t).children.getLast? = some t := by
  rw [wrapElem, Elem.children_mk]
  exact List.getLast?_concat _

theorem children_wrapElem_getAt (cfg : Config) (c : Elem) :
    getAt (wrapElem cfg c) [cfg.layers.length] = some c := by
  have hch : (wrapElem cfg c).children[cfg.layers.length]? = some c := by
    rw [wrapElem, Elem.children_mk, ← List.length_map cfg.layers layerElem]
    exact List.getElem?_concat_length _ _
  simp [getAt_cons, hch]

/-- An excluded element is never wrapped by its pass: it stays at its
path with unchanged node data. -/
theorem notWrapped_of_excl (cfg : Config) {d q c : Elem} {ρ : List Nat} {i : Nat}
    (hs : parentPathSafe cfg false d ρ = true) (hq : getAt d ρ = some q)
    (hc : q.children[i]? = some c) (he : cfg.excl c.data = true) :
    ∃ c', getAt (decorateGo cfg false d) (ρ ++ [i]) = some c' ∧ c'.data = c.data :=
  ⟨_, pathN cfg hs hq hc (shouldWrap_false_of_excl cfg _ he), data_decorateGo cfg _ c⟩

/-- A freshly wrapped element's parent carries the pass's display value. -/
theorem wrapped_parent_display (cfg : Config) {d q c : Elem} {ρ : List Nat} {i : Nat}
    (hs : parentPathSafe cfg false d ρ = true) (hq : getAt d ρ = some q)
    (hc : q.children[i]? = some c)
    (hw : shouldWrap cfg (pathFlag cfg false d ρ) c.data = true) :
    ∃ w, getAt (decorateGo cfg false d) (ρ ++ [i]) = some w ∧
      w.data.styleDisplay = cfg.display :=
  ⟨wrapElem cfg c, pathW cfg hs hq hc hw, rfl⟩

/-! Claim theorems. -/

/-- C1: invoking the decoration pass twice on the same document produces
the same final tree as invoking it once — the second invocation performs
no DOM mutation, and no element gains further wrapper-class ancestors
beyond those of the first invocation (ancestor counts along every path
agree), in either variant. -/
theorem c1_decoration_idempotent (d : Elem) :
    (v1Decorate (v1Decorate d) = v1Decorate d ∧
      v2Decorate (v2Decorate d) = v2Decorate d) ∧
    (∀ (cls : String) (π : List Nat),
      ancCount cls (v1Decorate (v1Decorate d)) π = ancCount cls (v1Decorate d) π ∧
      ancCount cls (v2Decorate (v2Decorate d)) π = ancCount cls (v2Decorate d) π) := by
  refine ⟨⟨v1Decorate_idem d, v2Decorate_idem d⟩, ?_⟩
  intro cls π
  rw [v1Decorate_idem d, v2Decorate_idem d]
  exact ⟨rfl, rfl⟩

/-- C5 counterexample: a matched text input (`matchesSel` holds of it)
with a null parent makes the decoration step throw — the script
dereferences `parentNode` without a null check (line 24) — instead of
degrading to a no-op, so the claim "the pass completes without raising
an error" fails at this input. -/
theorem c5_null_parent_throws :
    cfgV1Input.matchesSel elInputText.data = true ∧
    decorateStep cfgV1Input false none elInputText =
      .error "TypeError: null parentNode" :=
  ⟨rfl, rfl⟩

/-- C5 amended: a matched element with no parent node degrades to a
no-op only when the step skips it anyway (already-wrapped guard or
exclusion); a matched, non-skipped element with no parent makes the step
signal failure through the unguarded `parentNode` dereference.  In a
live document the failing case cannot arise, because every element
returned by `document.querySelectorAll` has a parent node. -/
theorem c5_amended_null_parent (cfg : Config) (anc : Bool) (el : Elem)
    (p : Option Elem) :
    ((anc = true ∨ hasCls cfg el.data = true ∨ cfg.excl el.data = true) →
      decorateStep cfg anc p el = .ok false) ∧
    (anc = false → hasCls cfg el.data = false → cfg.excl el.data = false →
      decorateStep cfg anc none el = .error "TypeError: null parentNode") := by
  constructor
  · intro h
    rcases h with h | h | h
    · simp [decorateStep, h]
    · simp [decorateStep, h]
    · cases hv : (anc || hasCls cfg el.data) <;> simp [decorateStep, hv, h]
  · intro h1 h2 h3
    subst h1
    simp [decorateStep, h2, h3]

/-- Witness for the amended C5: the skipped case (the excluded navbar
search input) is a no-op even with a null parent, and the non-skipped
case (a plain text input) throws. -/
theorem c5_amended_null_parent_witness :
    decorateStep cfgV1Input false none elSearchInput = .ok false ∧
    decorateStep cfgV1Input false none elInputText =
      .error "TypeError: null parentNode" :=
  ⟨(c5_amended_null_parent cfgV1Input false elSearchInput none).1
      (Or.inr (Or.inr rfl)),
    (c5_amended_null_parent cfgV1Input false elInputText none).2 rfl rfl rfl⟩

/-- C8: a document in which no node matches the eligible selector sets of
a variant is left unchanged by that variant's handler; the handler is a
total function of the tree, so no error is raised. -/
theorem c8_noop_on_empty (d : Elem) :
    (allDataP (fun x => !cfgV1Input.matchesSel x) d = true →
      allDataP (fun x => !cfgV1Button.matchesSel x) d = true →
      v1Decorate d = d) ∧
    (allDataP (fun x => !cfgV2Input.matchesSel x) d = true →
      allDataP (fun x => !cfgV2Button.matchesSel x) d = true →
      v2Decorate d = d) := by
  constructor
  · intro h1 h2
    rw [v1Decorate, decorateGo_of_allNot cfgV1Input d false h1,
      decorateGo_of_allNot cfgV1Button d false h2]
  · intro h1 h2
    rw [v2Decorate, decorateGo_of_allNot cfgV2Input d false h1,
      decorateGo_of_allNot cfgV2Button d false h2]

/-- Witness for C8 on a concrete document holding only a plain `div`. -/
theorem c8_noop_on_empty_witness :
    v1Decorate (docBody [elDiv]) = docBody [elDiv] ∧
    v2Decorate (docBody [elDiv]) = docBody [elDiv] :=
  ⟨(c8_noop_on_empty (docBody [elDiv])).1
      (by simp [docBody, elDiv, cfgV1Input])
      (by simp [docBody, elDiv, cfgV1Button]),
    (c8_noop_on_empty (docBody [elDiv])).2
      (by simp [docBody, elDiv, cfgV2Input])
      (by simp [docBody, elDiv, cfgV2Button])⟩

/-- C9: decorating the target at index `i` of its parent's child list is
an in-place parent substitution.  Replaying the script's own DOM call
sequence (`insertBefore(wrapper, target)` then the appends into the
wrapper), the net effect replaces the target's slot by the wrapper: the
list keeps its length, every other child keeps its position and identity,
the wrapper sits at the target's former index, and the wrapper's last
child is the target node itself — the identical subtree, so identity,
attributes and descendants are untouched.  The decoration pass places
exactly this wrapper at the target's index. -/
theorem c9_in_place_substitution (cfg : Config) (cs : List Elem) (i : Nat)
    (t : Elem) (h : cs[i]? = some t) :
    domWrapSeq cfg i cs = cs.set i (wrapElem cfg t) ∧
    (domWrapSeq cfg i cs).length = cs.length ∧
    (∀ j, j ≠ i → (domWrapSeq cfg i cs)[j]? = cs[j]?) ∧
    (domWrapSeq cfg i cs)[i]? = some (wrapElem cfg t) ∧
    (wrapElem cfg t).children.getLast? = some t ∧
    (∀ u, shouldWrap cfg u t.data = true →
      (decorateChildren cfg u cs)[i]? = some (wrapElem cfg t)) := by
  have he := domWrapSeq_eq_set cfg cs i t h
  have hlt : i < cs.length := getElem?_some_lt cs i t h
  refine ⟨he, ?_, ?_, ?_, getLast?_wrapElem cfg t, ?_⟩
  · rw [he, List.length_set]
  · intro j hj
    rw [he]
    exact getElem?_set_ne cs i j _ hj
  · rw [he]
    exact getElem?_set_self cs i _ hlt
  · intro u hw
    rw [decorateChildren_getElem?, h, Option.map_some', if_pos hw]

/-- Witness for C9: wrapping the second of two siblings (a plain `div`
and a primary button) in variant 1's button pass. -/
theorem c9_in_place_substitution_witness :
    domWrapSeq cfgV1Button 1 [elDiv, elBtnPrimary] =
      ([elDiv, elBtnPrimary].set 1 (wrapElem cfgV1Button elBtnPrimary)) ∧
    (domWrapSeq cfgV1Button 1 [elDiv, elBtnPrimary]).length = 2 ∧
    (∀ j, j ≠ 1 → (domWrapSeq cfgV1Button 1 [elDiv, elBtnPrimary])[j]? =
      [elDiv, elBtnPrimary][j]?) ∧
    (domWrapSeq cfgV1Button 1 [elDiv, elBtnPrimary])[1]? =
      some (wrapElem cfgV1Button elBtnPrimary) ∧
    (wrapElem cfgV1Button elBtnPrimary).children.getLast? = some elBtnPrimary ∧
    (∀ u, shouldWrap cfgV1Button u elBtnPrimary.data = true →
      (decorateChildren cfgV1Button u [elDiv, elBtnPrimary])[1]? =
        some (wrapElem cfgV1Button elBtnPrimary)) :=
  c9_in_place_substitution cfgV1Button [elDiv, elBtnPrimary] 1 elBtnPrimary rfl

/-- C2 counterexample: the claim's exclusion list names `card-btn` for
the button pass, but variant 2's button pass checks only `nav-btn` and
`tab-btn` (line 80).  On a document holding one `card-btn` button, after
variant 2's handler the button's immediate parent carries the wrapper
class `btn-animated-wrapper` — the allegedly excluded element does have a
wrapper ancestor. -/
theorem c2_card_btn_gets_wrapped :
    (getAt (v2Decorate (docBody [elCardBtn])) [0]).map
        (fun w => hasCls cfgV2Button w.data) = some true ∧
    (getAt (v2Decorate (docBody [elCardBtn])) [0, 3]).map
        (fun t => t.data.classes.contains "card-btn") = some true := by
  constructor <;>
    simp [v2Decorate, docBody, elCardBtn, decorateGo_mk, decorateChildren_cons,
      decorateChildren_nil, shouldWrap, hasCls, cfgV2Input, cfgV2Button, wrapElem,
      wrapData, layerElem, getAt_cons, Elem.data, Elem.children]

/-- C2 corrected: the exclusions as implemented are `search-input` for
variant 1's input pass; `nav-btn`, `tab-btn`, `card-btn` for variant 1's
button pass; none for variant 2's input pass; and only `nav-btn`,
`tab-btn` for variant 2's button pass.  An element matching its own
pass's exclusion (child `i` of the node at path `ρ`, with no node on that
path wrapped by the pass) is not wrapped by that pass: it keeps its path
and node data, so its immediate parent is not replaced by a wrapper. -/
theorem c2_exclusions_corrected :
    (∀ (d q c : Elem) (ρ : List Nat) (i : Nat),
      parentPathSafe cfgV1Input false d ρ = true →
      getAt d ρ = some q → q.children[i]? = some c →
      c.data.classes.contains "search-input" = true →
      ∃ c', getAt (decorateGo cfgV1Input false d) (ρ ++ [i]) = some c' ∧
        c'.data = c.data) ∧
    (∀ (d q c : Elem) (ρ : List Nat) (i : Nat),
      parentPathSafe cfgV1Button false d ρ = true →
      getAt d ρ = some q → q.children[i]? = some c →
      (c.data.classes.contains "nav-btn" || c.data.classes.contains "tab-btn"
        || c.data.classes.contains "card-btn") = true →
      ∃ c', getAt (decorateGo cfgV1Button false d) (ρ ++ [i]) = some c' ∧
        c'.data = c.data) ∧
    (∀ (d q c : Elem) (ρ : List Nat) (i : Nat),
      parentPathSafe cfgV2Button false d ρ = true →
      getAt d ρ = some q → q.children[i]? = some c →
      (c.data.classes.contains "nav-btn" || c.data.classes.contains "tab-btn") = true →
      ∃ c', getAt (decorateGo cfgV2Button false d) (ρ ++ [i]) = some c' ∧
        c'.data = c.data) := by
  refine ⟨?_, ?_, ?_⟩
  · intro d q c ρ i hs hq hc hx
    exact notWrapped_of_excl cfgV1Input hs hq hc (by simpa [cfgV1Input] using hx)
  · intro d q c ρ i hs hq hc hx
    exact notWrapped_of_excl cfgV1Button hs hq hc (by simpa [cfgV1Button] using hx)
  · intro d q c ρ i hs hq hc hx
    exact notWrapped_of_excl cfgV2Button hs hq hc (by simpa [cfgV2Button] using hx)

/-- Witness for the corrected C2 at concrete one-element documents: the
navbar search input under variant 1's input pass, and a `nav-btn` button
under both button passes. -/
theorem c2_exclusions_corrected_witness :
    (∃ c', getAt (decorateGo cfgV1Input false (docBody [elSearchInput])) [0] =
        some c' ∧ c'.data = elSearchInput.data) ∧
    (∃ c', getAt (decorateGo cfgV1Button false (docBody [elNavBtn])) [0] =
        some c' ∧ c'.data = elNavBtn.data) ∧
    (∃ c', getAt (decorateGo cfgV2Button false (docBody [elNavBtn])) [0] =
        some c' ∧ c'.data = elNavBtn.data) :=
  ⟨c2_exclusions_corrected.1 (docBody [elSearchInput]) (docBody [elSearchInput])
      elSearchInput [] 0 rfl rfl rfl rfl,
    c2_exclusions_corrected.2.1 (docBody [elNavBtn]) (docBody [elNavBtn])
      elNavBtn [] 0 rfl rfl rfl rfl,
    c2_exclusions_corrected.2.2 (docBody [elNavBtn]) (docBody [elNavBtn])
      elNavBtn [] 0 rfl rfl rfl rfl⟩

/-- C3: for an eligible, non-excluded element (child `i` of the node at
path `ρ`, reached with a clear `closest` guard, no node on the path being
wrapped), after the pass its immediate parent is a node carrying exactly
the wrapper class, and the parent's children are, in order, one element
per configured inner-layer class name followed by the target element
itself as last child; the target sits immediately after the layers.  The
layer lists of the four passes are pinned: none in variant 1, the
glow/darkBorderBg/border triples in variant 2. -/
theorem c3_structural_completeness :
    (∀ (cfg : Config) (d q c : Elem) (ρ : List Nat) (i : Nat),
      parentPathSafe cfg false d ρ = true →
      getAt d ρ = some q →
      q.children[i]? = some c →
      shouldWrap cfg (pathFlag cfg false d ρ) c.data = true →
      ∃ w, getAt (decorateGo cfg false d) (ρ ++ [i]) = some w ∧
        w.data.classes = [cfg.wCls] ∧
        w.children = cfg.layers.map layerElem ++ [c] ∧
        getAt (decorateGo cfg false d) (ρ ++ [i] ++ [cfg.layers.length]) = some c) ∧
    cfgV1Input.layers = [] ∧ cfgV1Button.layers = [] ∧
    cfgV2Input.layers = ["glow-input", "darkBorderBg-input", "border-input"] ∧
    cfgV2Button.layers = ["glow-btn", "darkBorderBg-btn", "border-btn"] := by
  refine ⟨?_, rfl, rfl, rfl, rfl⟩
  intro cfg d q c ρ i hs hq hc hw
  have hwrap := pathW cfg hs hq hc hw
  refine ⟨wrapElem cfg c, hwrap, rfl, rfl, ?_⟩
  rw [getAt_append, hwrap]
  exact children_wrapElem_getAt cfg c

/-- Witness for C3: a plain text input under variant 2's input pass gets
a parent of class `input-animated-wrapper` whose children are the three
layers followed by the input. -/
theorem c3_structural_completeness_witness :
    ∃ w, getAt (decorateGo cfgV2Input false (docBody [elInputText])) [0] =
        some w ∧
      w.data.classes = [cfgV2Input.wCls] ∧
      w.children = cfgV2Input.layers.map layerElem ++ [elInputText] ∧
      getAt (decorateGo cfgV2Input false (docBody [elInputText]))
        ([0] ++ [cfgV2Input.layers.length]) = some elInputText :=
  c3_structural_completeness.1 cfgV2Input (docBody [elInputText])
    (docBody [elInputText]) elInputText [] 0 rfl rfl rfl rfl

/-- C4: two sibling eligible elements at indices `i < j` of the node at
path `ρ` are wrapped in place, so A's wrapper ends at index `i` and B's
wrapper at index `j` of the same parent — A's wrapper precedes B's
wrapper in document order. -/
theorem c4_sibling_order_preserved (cfg : Config) (d q a b : Elem)
    (ρ : List Nat) (i j : Nat)
    (hs : parentPathSafe cfg false d ρ = true) (hq : getAt d ρ = some q)
    (ha : q.children[i]? = some a) (hb : q.children[j]? = some b) (hij : i < j)
    (hwa : shouldWrap cfg (pathFlag cfg false d ρ) a.data = true)
    (hwb : shouldWrap cfg (pathFlag cfg false d ρ) b.data = true) :
    getAt (decorateGo cfg false d) (ρ ++ [i]) = some (wrapElem cfg a) ∧
    getAt (decorateGo cfg false d) (ρ ++ [j]) = some (wrapElem cfg b) ∧
    (wrapElem cfg a).children.getLast? = some a ∧
    (wrapElem cfg b).children.getLast? = some b ∧
    i < j :=
  ⟨pathW cfg hs hq ha hwa, pathW cfg hs hq hb hwb,
    getLast?_wrapElem cfg a, getLast?_wrapElem cfg b, hij⟩

/-- Witness for C4: two sibling primary buttons under variant 1's button
pass. -/
theorem c4_sibling_order_preserved_witness :
    getAt (decorateGo cfgV1Button false (docBody [elBtnPrimary, elBtnPrimaryB]))
        [0] = some (wrapElem cfgV1Button elBtnPrimary) ∧
    getAt (decorateGo cfgV1Button false (docBody [elBtnPrimary, elBtnPrimaryB]))
        [1] = some (wrapElem cfgV1Button elBtnPrimaryB) ∧
    (wrapElem cfgV1Button elBtnPrimary).children.getLast? = some elBtnPrimary ∧
    (wrapElem cfgV1Button elBtnPrimaryB).children.getLast? = some elBtnPrimaryB ∧
    0 < 1 :=
  c4_sibling_order_preserved cfgV1Button (docBody [elBtnPrimary, elBtnPrimaryB])
    (docBody [elBtnPrimary, elBtnPrimaryB]) elBtnPrimary elBtnPrimaryB [] 0 1
    rfl rfl rfl rfl (by decide) rfl rfl

/-- C7: a target input with an explicit inline width keeps that width on
its wrapper: variant 1's input pass evaluates
`input.style.width || getComputedStyle(input).width`, which is the inline
width whenever that is nonempty, and copies it onto the wrapper. -/
theorem c7_inline_width_preserved (d q c : Elem) (ρ : List Nat) (i : Nat)
    (hs : parentPathSafe cfgV1Input false d ρ = true) (hq : getAt d ρ = some q)
    (hc : q.children[i]? = some c)
    (hw : shouldWrap cfgV1Input (pathFlag cfgV1Input false d ρ) c.data = true)
    (hwidth : c.data.styleWidth ≠ "") :
    ∃ w, getAt (decorateGo cfgV1Input false d) (ρ ++ [i]) = some w ∧
      w.data.styleWidth = c.data.styleWidth := by
  refine ⟨wrapElem cfgV1Input c, pathW cfgV1Input hs hq hc hw, ?_⟩
  rw [wrapElem, Elem.data_mk, wrapData]
  simp [cfgV1Input, hwidth]

/-- Witness for C7: an input with inline width `100px` (and computed
width `240px`) gets a wrapper of width `100px`. -/
theorem c7_inline_width_preserved_witness :
    ∃ w, getAt (decorateGo cfgV1Input false (docBody [elInputWide])) [0] =
        some w ∧ w.data.styleWidth = elInputWide.data.styleWidth :=
  c7_inline_width_preserved (docBody [elInputWide]) (docBody [elInputWide])
    elInputWide [] 0 rfl rfl rfl rfl (by decide)

/-- C10: every wrapper created by variant 2's button pass carries the
inline style `display: inline-block`, and no other pass's wrapper gets a
display style (variant 2's input pass and both variant 1 passes leave it
empty). -/
theorem c10_button_wrapper_display :
    (∀ (d q c : Elem) (ρ : List Nat) (i : Nat),
      parentPathSafe cfgV2Button false d ρ = true →
      getAt d ρ = some q → q.children[i]? = some c →
      shouldWrap cfgV2Button (pathFlag cfgV2Button false d ρ) c.data = true →
      ∃ w, getAt (decorateGo cfgV2Button false d) (ρ ++ [i]) = some w ∧
        w.data.styleDisplay = "inline-block") ∧
    (∀ (d q c : Elem) (ρ : List Nat) (i : Nat),
      parentPathSafe cfgV2Input false d ρ = true →
      getAt d ρ = some q → q.children[i]? = some c →
      shouldWrap cfgV2Input (pathFlag cfgV2Input false d ρ) c.data = true →
      ∃ w, getAt (decorateGo cfgV2Input false d) (ρ ++ [i]) = some w ∧
        w.data.styleDisplay = "") ∧
    (∀ (d q c : Elem) (ρ : List Nat) (i : Nat),
      parentPathSafe cfgV1Input false d ρ = true →
      getAt d ρ = some q → q.children[i]? = some c →
      shouldWrap cfgV1Input (pathFlag cfgV1Input false d ρ) c.data = true →
      ∃ w, getAt (decorateGo cfgV1Input false d) (ρ ++ [i]) = some w ∧
        w.data.styleDisplay = "") ∧
    (∀ (d q c : Elem) (ρ : List Nat) (i : Nat),
      parentPathSafe cfgV1Button false d ρ = true →
      getAt d ρ = some q → q.children[i]? = some c →
      shouldWrap cfgV1Button (pathFlag cfgV1Button false d ρ) c.data = true →
      ∃ w, getAt (decorateGo cfgV1Button false d) (ρ ++ [i]) = some w ∧
        w.data.styleDisplay = "") :=
  ⟨fun _ _ _ _ _ hs hq hc hw => wrapped_parent_display cfgV2Button hs hq hc hw,
    fun _ _ _ _ _ hs hq hc hw => wrapped_parent_display cfgV2Input hs hq hc hw,
    fun _ _ _ _ _ hs hq hc hw => wrapped_parent_display cfgV1Input hs hq hc hw,
    fun _ _ _ _ _ hs hq hc hw => wrapped_parent_display cfgV1Button hs hq hc hw⟩

/-- Witness for C10 at concrete one-element documents for all four
passes. -/
theorem c10_button_wrapper_display_witness :
    (∃ w, getAt (decorateGo cfgV2Button false (docBody [elCardBtn])) [0] =
        some w ∧ w.data.styleDisplay = "inline-block") ∧
    (∃ w, getAt (decorateGo cfgV2Input false (docBody [elInputText])) [0] =
        some w ∧ w.data.styleDisplay = "") ∧
    (∃ w, getAt (decorateGo cfgV1Input false (docBody [elInputText])) [0] =
        some w ∧ w.data.styleDisplay = "") ∧
    (∃ w, getAt (decorateGo cfgV1Button false (docBody [elBtnPrimary])) [0] =
        some w ∧ w.data.styleDisplay = "") :=
  ⟨c10_button_wrapper_display.1 (docBody [elCardBtn]) (docBody [elCardBtn])
      elCardBtn [] 0 rfl rfl rfl rfl,
    c10_button_wrapper_display.2.1 (docBody [elInputText]) (docBody [elInputText])
      elInputText [] 0 rfl rfl rfl rfl,
    c10_button_wrapper_display.2.2.1 (docBody [elInputText]) (docBody [elInputText])
      elInputText [] 0 rfl rfl rfl rfl,
    c10_button_wrapper_display.2.2.2 (docBody [elBtnPrimary]) (docBody [elBtnPrimary])
      elBtnPrimary [] 0 rfl rfl rfl rfl⟩

/-- C6 counterexample: an element matching both selector sets — a text
input that also carries the class `btn-primary` — is wrapped by variant
1's input pass and then again by its button pass (the button pass's
`closest('.btn-animated-wrapper')` guard does not see the input wrapper),
so the element ends up with an input-wrapper ancestor and a
button-wrapper ancestor created for it in a single invocation. -/
theorem c6_double_wrap_counterexample :
    (getAt (v1Decorate (docBody [elInputBtn])) [0]).map
        (fun w => hasCls cfgV1Input w.data) = some true ∧
    (getAt (v1Decorate (docBody [elInputBtn])) [0, 0]).map
        (fun w => hasCls cfgV1Button w.data) = some true ∧
    (getAt (v1Decorate (docBody [elInputBtn])) [0, 0, 0]).map
        (fun t => t.data.id) = some 9 := by
  refine ⟨?_, ?_, ?_⟩ <;>
    simp [v1Decorate, docBody, elInputBtn, decorateGo_mk, decorateChildren_cons,
      decorateChildren_nil, shouldWrap, hasCls, cfgV1Input, cfgV1Button, wrapElem,
      wrapData, layerElem, getAt_cons, Elem.data, Elem.children]

/-- C6 corrected: exactly-one-wrapper holds for elements eligible for
only one of the two passes.  In variant 1, for a target (child `i` of the
node at path `ρ`, path wrapped by neither pass) that the input pass wraps
and that does not match the button selector set, after the full handler
its immediate parent is a node whose class list is exactly
`["input-animated-wrapper"]` (so it is not also a button wrapper), the
target sits unchanged inside that single wrapper, and every node on the
path above keeps its node data (so no further wrapper ancestor appears);
symmetrically for a button-pass target that does not match the input
selector set; and re-invoking the handler creates no second wrapper.  An
element matching both selector sets is instead wrapped once per pass. -/
theorem c6_single_wrapper_corrected :
    (∀ (d q c : Elem) (ρ : List Nat) (i : Nat),
      parentPathSafe cfgV1Input false d ρ = true →
      parentPathSafe cfgV1Button false d ρ = true →
      getAt d ρ = some q → q.children[i]? = some c →
      shouldWrap cfgV1Input (pathFlag cfgV1Input false d ρ) c.data = true →
      cfgV1Button.matchesSel c.data = false →
      (∃ w, getAt (v1Decorate d) (ρ ++ [i]) = some w ∧
        w.data.classes = ["input-animated-wrapper"] ∧
        (∃ c', getAt (v1Decorate d) (ρ ++ [i] ++ [0]) = some c' ∧
          c'.data = c.data)) ∧
      (∀ (σ τ : List Nat) (p : Elem), σ ++ τ = ρ → getAt d σ = some p →
        ∃ p', getAt (v1Decorate d) σ = some p' ∧ p'.data = p.data)) ∧
    (∀ (d q c : Elem) (ρ : List Nat) (i : Nat),
      parentPathSafe cfgV1Input false d ρ = true →
      parentPathSafe cfgV1Button false d ρ = true →
      getAt d ρ = some q → q.children[i]? = some c →
      shouldWrap cfgV1Button (pathFlag cfgV1Button false d ρ) c.data = true →
      cfgV1Input.matchesSel c.data = false →
      (∃ w, getAt (v1Decorate d) (ρ ++ [i]) = some w ∧
        w.data.classes = ["btn-animated-wrapper"] ∧
        (∃ c', getAt (v1Decorate d) (ρ ++ [i] ++ [0]) = some c' ∧
          c'.data = c.data)) ∧
      (∀ (σ τ : List Nat) (p : Elem), σ ++ τ = ρ → getAt d σ = some p →
        ∃ p', getAt (v1Decorate d) σ = some p' ∧ p'.data = p.data)) ∧
    (∀ d : Elem, v1Decorate (v1Decorate d) = v1Decorate d) := by
  refine ⟨?_, ?_, v1Decorate_idem⟩
  · -- input-pass target that the button pass does not match
    intro d q c ρ i hsIn hsBtn hq hc hwIn hNoBtn
    have hXw : getAt (decorateGo cfgV1Input false d) (ρ ++ [i]) =
        some (wrapElem cfgV1Input c) := pathW cfgV1Input hsIn hq hc hwIn
    obtain ⟨tS, tF⟩ := path_transport cfgV1Input cfgV1Button ρ d false false hsIn
    have hsBtnX : parentPathSafe cfgV1Button false (decorateGo cfgV1Input false d) ρ
        = true := by rw [tS]; exact hsBtn
    obtain ⟨q', hXq, _, hq'c⟩ := pathQ cfgV1Input ρ d false q hsIn hq
    have hq'ci : q'.children[i]? = some (wrapElem cfgV1Input c) := by
      rw [hq'c, decorateChildren_getElem?, hc, Option.map_some', if_pos hwIn]
    have hwrapNo : shouldWrap cfgV1Button
        (pathFlag cfgV1Button false (decorateGo cfgV1Input false d) ρ)
        (wrapElem cfgV1Input c).data = false := by
      apply shouldWrap_false_of_not_matches
      rfl
    have hsX2 : parentPathSafe cfgV1Button false (decorateGo cfgV1Input false d)
        (ρ ++ [i]) = true :=
      parentPathSafe_snoc cfgV1Button ρ _ false q' (wrapElem cfgV1Input c) i
        hsBtnX hXq hq'ci hwrapNo
    obtain ⟨w', hYw, hw'd, hw'c⟩ :=
      pathQ cfgV1Button (ρ ++ [i]) _ false (wrapElem cfgV1Input c) hsX2 hXw
    have hcNoBtn : shouldWrap cfgV1Button
        (pathFlag cfgV1Button false (decorateGo cfgV1Input false d) (ρ ++ [i]))
        c.data = false := shouldWrap_false_of_not_matches cfgV1Button _ hNoBtn
    have hw'c0 : w'.children[0]? = some (decorateGo cfgV1Button
        (pathFlag cfgV1Button false (decorateGo cfgV1Input false d) (ρ ++ [i])) c) := by
      rw [hw'c]
      have : (wrapElem cfgV1Input c).children = [c] := rfl
      rw [this, decorateChildren_getElem?]
      simp [hcNoBtn]
    refine ⟨⟨w', hYw, ?_, ?_⟩, ?_⟩
    · rw [hw'd]
      rfl
    · refine ⟨decorateGo cfgV1Button
          (pathFlag cfgV1Button false (decorateGo cfgV1Input false d) (ρ ++ [i])) c, ?_,
        data_decorateGo _ _ c⟩
      unfold v1Decorate
      rw [getAt_append, hYw]
      simp [getAt_cons, hw'c0]
    · intro σ τ p hστ hp
      have hsInσ : parentPathSafe cfgV1Input false d σ = true :=
        parentPathSafe_of_append cfgV1Input σ τ d false (by rw [hστ]; exact hsIn)
      have hsBtnσ : parentPathSafe cfgV1Button false d σ = true :=
        parentPathSafe_of_append cfgV1Button σ τ d false (by rw [hστ]; exact hsBtn)
      obtain ⟨p₁, hp1, hp1d, _⟩ := pathQ cfgV1Input σ d false p hsInσ hp
      obtain ⟨tSσ, _⟩ := path_transport cfgV1Input cfgV1Button σ d false false hsInσ
      have hsBtnXσ : parentPathSafe cfgV1Button false
          (decorateGo cfgV1Input false d) σ = true := by rw [tSσ]; exact hsBtnσ
      obtain ⟨p₂, hp2, hp2d, _⟩ := pathQ cfgV1Button σ _ false p₁ hsBtnXσ hp1
      exact ⟨p₂, hp2, by rw [hp2d, hp1d]⟩
  · -- button-pass target that the input pass does not match
    intro d q c ρ i hsIn hsBtn hq hc hwBtn hNoIn
    have hNInF : shouldWrap cfgV1Input (pathFlag cfgV1Input false d ρ) c.data
        = false := shouldWrap_false_of_not_matches cfgV1Input _ hNoIn
    have hXc : getAt (decorateGo cfgV1Input false d) (ρ ++ [i]) =
        some (decorateGo cfgV1Input (pathFlag cfgV1Input false d ρ) c) :=
      pathN cfgV1Input hsIn hq hc hNInF
    obtain ⟨tS, tF⟩ := path_transport cfgV1Input cfgV1Button ρ d false false hsIn
    have hsBtnX : parentPathSafe cfgV1Button false (decorateGo cfgV1Input false d) ρ
        = true := by rw [tS]; exact hsBtn
    obtain ⟨q', hXq, _, hq'c⟩ := pathQ cfgV1Input ρ d false q hsIn hq
    have hq'ci : q'.children[i]? =
        some (decorateGo cfgV1Input (pathFlag cfgV1Input false d ρ) c) := by
      rw [hq'c, decorateChildren_getElem?, hc, Option.map_some',
        if_neg (by simp [hNInF])]
    have hcBtnX : shouldWrap cfgV1Button
        (pathFlag cfgV1Button false (decorateGo cfgV1Input false d) ρ)
        (decorateGo cfgV1Input (pathFlag cfgV1Input false d ρ) c).data = true := by
      rw [data_decorateGo, tF]
      exact hwBtn
    have hYw : getAt (decorateGo cfgV1Button false (decorateGo cfgV1Input false d))
        (ρ ++ [i]) = some (wrapElem cfgV1Button
          (decorateGo cfgV1Input (pathFlag cfgV1Input false d ρ) c)) :=
      pathW cfgV1Button hsBtnX hXq hq'ci hcBtnX
    refine ⟨⟨_, hYw, rfl, ?_⟩, ?_⟩
    · refine ⟨decorateGo cfgV1Input (pathFlag cfgV1Input false d ρ) c, ?_,
        data_decorateGo _ _ c⟩
      rw [getAt_append]
      have : getAt (v1Decorate d) (ρ ++ [i]) = some (wrapElem cfgV1Button
          (decorateGo cfgV1Input (pathFlag cfgV1Input false d ρ) c)) := hYw
      rw [this]
      rfl
    · intro σ τ p hστ hp
      have hsInσ : parentPathSafe cfgV1Input false d σ = true :=
        parentPathSafe_of_append cfgV1Input σ τ d false (by rw [hστ]; exact hsIn)
      have hsBtnσ : parentPathSafe cfgV1Button false d σ = true :=
        parentPathSafe_of_append cfgV1Button σ τ d false (by rw [hστ]; exact hsBtn)
      obtain ⟨p₁, hp1, hp1d, _⟩ := pathQ cfgV1Input σ d false p hsInσ hp
      obtain ⟨tSσ, _⟩ := path_transport cfgV1Input cfgV1Button σ d false false hsInσ
      have hsBtnXσ : parentPathSafe cfgV1Button false
          (decorateGo cfgV1Input false d) σ = true := by rw [tSσ]; exact hsBtnσ
      obtain ⟨p₂, hp2, hp2d, _⟩ := pathQ cfgV1Button σ _ false p₁ hsBtnXσ hp1
      exact ⟨p₂, hp2, by rw [hp2d, hp1d]⟩

/-- Witness for the corrected C6: a plain text input (matched by the
input pass only) under variant 1's full handler. -/
theorem c6_single_wrapper_corrected_witness :
    (∃ w, getAt (v1Decorate (docBody [elInputText])) [0] = some w ∧
      w.data.classes = ["input-animated-wrapper"] ∧
      (∃ c', getAt (v1Decorate (docBody [elInputText])) ([0] ++ [0]) = some c' ∧
        c'.data = elInputText.data)) ∧
    (∀ (σ τ : List Nat) (p : Elem), σ ++ τ = [] →
      getAt (docBody [elInputText]) σ = some p →
      ∃ p', getAt (v1Decorate (docBody [elInputText])) σ = some p' ∧
        p'.data = p.data) :=
  c6_single_wrapper_corrected.1 (docBody [elInputText]) (docBody [elInputText])
    elInputText [] 0 rfl rfl rfl rfl rfl rfl

end AnimatedBorders
